import Mathlib

/-!
Verification of the appointment data/validation layer of the EMR-System
repository (`src/EMR_Frontend_Assignment.jsx`): the mock-backend functions
`getAppointments`, `createAppointment`, `updateAppointmentStatus` and
`deleteAppointment` together with the module-level state `mockAppointments`
and `_nextId`, shallowly embedded as pure Lean functions over an explicit
store.
-/

namespace EMR

/-- A JavaScript number as it occurs in this code: an integer value, or
`none` standing for `NaN`. -/
abbrev JSNum := Option Int

/-- Addition on JS numbers; any operand that is `NaN` makes the result `NaN`. -/
def jsAdd : JSNum → JSNum → JSNum
  | some a, some b => some (a + b)
  | _, _ => none

/-- The `<` comparison on JS numbers; every comparison involving `NaN` is false. -/
def jsLt : JSNum → JSNum → Bool
  | some a, some b => a < b
  | _, _ => false

/-- Strip leading and trailing whitespace from a character list. -/
def trimChars (cs : List Char) : List Char :=
  ((cs.dropWhile Char.isWhitespace).reverse.dropWhile Char.isWhitespace).reverse

/-- The numeric value of a run of decimal digits. -/
def digitsToNat (ds : List Char) : Nat :=
  ds.foldl (fun acc c => acc * 10 + (c.toNat - 48)) 0

/-- A non-empty, all-digit character run read as a natural number. -/
def allDigitsNat? (cs : List Char) : Option Nat :=
  if !cs.isEmpty && cs.all Char.isDigit then some (digitsToNat cs) else none

/-- The JS `Number(string)` conversion, on the fragment of strings this code
meets: an empty or all-whitespace string converts to `0`, a decimal integer
literal with an optional sign converts to its value, and every other string
(in particular anything with fractional digits or stray characters) is
treated as `NaN`. -/
def jsNumberOfChars (cs : List Char) : JSNum :=
  match trimChars cs with
  | [] => some 0
  | '-' :: rest => (allDigitsNat? rest).map (fun n => -(n : Int))
  | '+' :: rest => (allDigitsNat? rest).map (fun n => (n : Int))
  | t => (allDigitsNat? t).map (fun n => (n : Int))

/-- The JS `Number` conversion applied to a string. -/
def jsNumber (s : String) : JSNum := jsNumberOfChars s.toList

/-- The longest leading run of decimal digits, read as a natural number;
`none` when there is no leading digit. -/
def leadingNat? (cs : List Char) : Option Nat :=
  let ds := cs.takeWhile Char.isDigit
  if ds.isEmpty then none
  else some (digitsToNat ds)

/-- The JS `parseInt(string)` conversion: skip leading whitespace, accept an
optional sign, read the longest run of decimal digits and ignore whatever
follows; `NaN` when no digit is found. -/
def jsParseInt (s : String) : JSNum :=
  match s.toList.dropWhile Char.isWhitespace with
  | '-' :: rest => (leadingNat? rest).map (fun n => -(n : Int))
  | '+' :: rest => (leadingNat? rest).map (fun n => (n : Int))
  | cs => (leadingNat? cs).map (fun n => (n : Int))

/-- JS falsiness of an optional string field: absent (`undefined`/`null`) or
the empty string. This is the `!payload[field]` test of the source. -/
def jsFalsy : Option String → Bool
  | none => true
  | some v => v == ""

/-- JS truthiness of an optional string, `if (x)` on a string-or-null value. -/
def jsTruthy (o : Option String) : Bool := !(jsFalsy o)

/-- The JS `x || d` default pattern on an optional string field. -/
def jsOrElse (v : Option String) (d : String) : String :=
  match v with
  | some s => if s == "" then d else s
  | none => d

/-- One appointment record, with the exact fields of the source's data model.
`duration` is a JS number because the code stores `parseInt(payload.duration)`
there, which can be `NaN`. -/
structure Appointment where
  id : Nat
  name : String
  date : String
  time : String
  duration : JSNum
  doctorName : String
  status : String
  mode : String
  reason : String
  phone : String
  email : String
  notes : String
deriving DecidableEq, Repr

/-- The argument of `createAppointment`: a JS object whose fields may each be
absent (`none`) or hold a string. Numeric payload durations are modelled by
their decimal string, which `parseInt` reads identically. -/
structure Payload where
  patientName : Option String
  date : Option String
  time : Option String
  duration : Option String
  doctorName : Option String
  mode : Option String
  status : Option String
  reason : Option String
  phone : Option String
  email : Option String
  notes : Option String
deriving DecidableEq, Repr

/-- Dynamic field access `payload[field]` for the field names this code uses. -/
def Payload.lookup (p : Payload) : String → Option String
  | "patientName" => p.patientName
  | "date" => p.date
  | "time" => p.time
  | "duration" => p.duration
  | "doctorName" => p.doctorName
  | "mode" => p.mode
  | "status" => p.status
  | "reason" => p.reason
  | "phone" => p.phone
  | "email" => p.email
  | "notes" => p.notes
  | _ => none

/-- The module-level mutable state: the `mockAppointments` array and the
`_nextId` counter. -/
structure Store where
  appointments : List Appointment
  nextId : Nat
deriving DecidableEq, Repr

/-- The 12-record seed fixture `mockAppointments` of the source. -/
def mockAppointments : List Appointment := [
  { id := 1, name := "Sarah Johnson", date := "2026-01-30", time := "09:00",
    duration := some 30, doctorName := "Dr. Rajesh Kumar", status := "Confirmed",
    mode := "In-Person", reason := "Diabetes Management", phone := "+91 98765 43210",
    email := "sarah.j@email.com", notes := "Patient needs prescription refill" },
  { id := 2, name := "Michael Chen", date := "2026-01-30", time := "10:00",
    duration := some 45, doctorName := "Dr. Priya Sharma", status := "Scheduled",
    mode := "In-Person", reason := "Annual Physical Examination", phone := "+91 98765 43211",
    email := "m.chen@email.com", notes := "" },
  { id := 3, name := "Emily Rodriguez", date := "2026-01-30", time := "11:30",
    duration := some 30, doctorName := "Dr. Rajesh Kumar", status := "Confirmed",
    mode := "Video Call", reason := "Cold and Flu Symptoms", phone := "+91 98765 43212",
    email := "emily.r@email.com", notes := "Video consultation requested" },
  { id := 4, name := "Rahul Sharma", date := "2026-01-31", time := "09:00",
    duration := some 30, doctorName := "Dr. Priya Sharma", status := "Upcoming",
    mode := "In-Person", reason := "General Checkup", phone := "+91 98765 43213",
    email := "rahul.s@email.com", notes := "" },
  { id := 5, name := "Anita Desai", date := "2026-01-31", time := "14:00",
    duration := some 45, doctorName := "Dr. Amit Patel", status := "Upcoming",
    mode := "Video Call", reason := "Follow-up Consultation", phone := "+91 98765 43214",
    email := "anita.d@email.com", notes := "" },
  { id := 6, name := "Vikram Singh", date := "2026-01-29", time := "10:00",
    duration := some 30, doctorName := "Dr. Rajesh Kumar", status := "Confirmed",
    mode := "In-Person", reason := "Blood Pressure Check", phone := "+91 98765 43215",
    email := "vikram.s@email.com", notes := "Regular checkup" },
  { id := 7, name := "Priya Nair", date := "2026-01-29", time := "15:30",
    duration := some 45, doctorName := "Dr. Amit Patel", status := "Cancelled",
    mode := "In-Person", reason := "Skin Consultation", phone := "+91 98765 43216",
    email := "priya.n@email.com", notes := "Patient cancelled" },
  { id := 8, name := "Deepak Malhotra", date := "2026-02-01", time := "09:30",
    duration := some 30, doctorName := "Dr. Priya Sharma", status := "Scheduled",
    mode := "In-Person", reason := "Vaccination", phone := "+91 98765 43217",
    email := "deepak.m@email.com", notes := "" },
  { id := 9, name := "Sunita Verma", date := "2026-02-01", time := "11:00",
    duration := some 60, doctorName := "Dr. Rajesh Kumar", status := "Upcoming",
    mode := "In-Person", reason := "Complete Health Checkup", phone := "+91 98765 43218",
    email := "sunita.v@email.com", notes := "" },
  { id := 10, name := "Kiran Joshi", date := "2026-01-30", time := "16:00",
    duration := some 30, doctorName := "Dr. Amit Patel", status := "Confirmed",
    mode := "Phone Call", reason := "Test Results Discussion", phone := "+91 98765 43219",
    email := "kiran.j@email.com", notes := "" },
  { id := 11, name := "Neha Kapoor", date := "2026-01-28", time := "10:30",
    duration := some 30, doctorName := "Dr. Amit Patel", status := "Confirmed",
    mode := "Phone Call", reason := "Medication Review", phone := "+91 98765 43220",
    email := "neha.k@email.com", notes := "Past appointment - completed" },
  { id := 12, name := "Amit Tiwari", date := "2026-02-02", time := "14:30",
    duration := some 45, doctorName := "Dr. Priya Sharma", status := "Scheduled",
    mode := "Video Call", reason := "Mental Health Consultation", phone := "+91 98765 43221",
    email := "amit.t@email.com", notes := "First time patient" }]

/-- The state at module load: the seed fixture and `_nextId = 13`. -/
def initialStore : Store := { appointments := mockAppointments, nextId := 13 }

/-- Models `getAppointments(date, status, doctorName)`: copy the collection, then
apply one `filter` per truthy argument. -/
def getAppointments (date status doctorName : Option String) (s : Store) :
    List Appointment :=
  let r1 := s.appointments
  let r2 := if jsTruthy date then r1.filter (fun apt => apt.date == date.getD "") else r1
  let r3 := if jsTruthy status then r2.filter (fun apt => apt.status == status.getD "") else r2
  if jsTruthy doctorName then r3.filter (fun apt => apt.doctorName == doctorName.getD "") else r3

/-- Models `mockAppointments.find(a => a.id === id)` followed by the in-place
`apt.status = newStatus`: update the first record carrying `id`, return the
updated record and the updated list. -/
def updateFirstStatus (id : Nat) (newStatus : String) :
    List Appointment → Option Appointment × List Appointment
  | [] => (none, [])
  | a :: rest =>
    if a.id == id then
      let updated := { a with status := newStatus }
      (some updated, updated :: rest)
    else
      let tailResult := updateFirstStatus id newStatus rest
      (tailResult.1, a :: tailResult.2)

/-- Models `updateAppointmentStatus(id, newStatus)`: returns the updated record, or
`null` when no record has the identifier; the store is threaded explicitly. -/
def updateAppointmentStatus (id : Nat) (newStatus : String) (s : Store) :
    Option Appointment × Store :=
  let r := updateFirstStatus id newStatus s.appointments
  (r.1, { s with appointments := r.2 })

/-- Models `findIndex` plus `splice(index, 1)`: remove the first record carrying
`id`; the flag reports whether one was found. -/
def removeFirst (id : Nat) : List Appointment → Bool × List Appointment
  | [] => (false, [])
  | a :: rest =>
    if a.id == id then (true, rest)
    else
      let tailResult := removeFirst id rest
      (tailResult.1, a :: tailResult.2)

/-- Models `deleteAppointment(id)`: hard removal, `true` on success. -/
def deleteAppointment (id : Nat) (s : Store) : Bool × Store :=
  let r := removeFirst id s.appointments
  (r.1, { s with appointments := r.2 })

/-- Models `timeStr.split(':')` on the character level: split at every colon,
keeping empty groups. -/
def splitOnColon : List Char → List (List Char)
  | [] => [[]]
  | c :: rest =>
    if c == ':' then [] :: splitOnColon rest
    else
      match splitOnColon rest with
      | [] => [[c]]
      | g :: gs => (c :: g) :: gs

/-- Models `timeToMinutes`: split on `':'`, convert the first two components with
`Number`, return `hours * 60 + minutes`. A string without a `':'` yields
`NaN` (the minutes component is `undefined`). -/
def timeToMinutes (timeStr : String) : JSNum :=
  match splitOnColon timeStr.toList with
  | h :: m :: _ =>
    match jsNumberOfChars h, jsNumberOfChars m with
    | some hv, some mv => some (hv * 60 + mv)
    | _, _ => none
  | _ => none

/-- The errors `createAppointment` can throw: a validation error carrying the
missing field names, or a conflict error identifying the colliding
appointment (whose time, duration and patient name the thrown message shows). -/
inductive CreateError where
  | validation (missing : List String)
  | conflict (existing : Appointment)
deriving DecidableEq, Repr

/-- The `requiredFields` array of `createAppointment`. -/
def requiredFields : List String :=
  ["patientName", "date", "time", "duration", "doctorName", "mode"]

/-- Models `requiredFields.filter(field => !payload[field])`. -/
def missingFields (p : Payload) : List String :=
  requiredFields.filter (fun f => jsFalsy (p.lookup f))

/-- The conflict test applied to one existing appointment inside the
`for`-loop of `createAppointment`: same doctor, same date, not Cancelled, and
the half-open intervals overlap (`newStart < existingEnd && existingStart <
newEnd`). -/
def conflictsWith (newDoctor newDate : String) (newStart newEnd : JSNum)
    (apt : Appointment) : Bool :=
  apt.doctorName == newDoctor && apt.date == newDate && apt.status != "Cancelled" &&
  jsLt newStart (jsAdd (timeToMinutes apt.time) apt.duration) &&
  jsLt (timeToMinutes apt.time) newEnd

/-- The candidate's start `newStart = timeToMinutes(payload.time)`. -/
def candidateStart (payload : Payload) : JSNum :=
  timeToMinutes (payload.time.getD "")

/-- The candidate's end `newEnd = newStart + parseInt(payload.duration)`. -/
def candidateEnd (payload : Payload) : JSNum :=
  jsAdd (candidateStart payload) (jsParseInt (payload.duration.getD ""))

/-- The conflict test of the `for`-loop, with the candidate data read off the
payload (`newDoctor`, `newDate`, `newStart`, `newEnd`). -/
def conflictFor (payload : Payload) (apt : Appointment) : Bool :=
  conflictsWith (payload.doctorName.getD "") (payload.date.getD "")
    (candidateStart payload) (candidateEnd payload) apt

/-- The `newAppointment` object literal of `createAppointment`: the payload
fields with `patientName` mapped to `name`, `parseInt` applied to the
duration, and the `|| default` fallbacks on `status`/`reason`/`phone`/
`email`/`notes`. -/
def newRecord (payload : Payload) (newId : Nat) : Appointment :=
  { id := newId
    name := payload.patientName.getD ""
    date := payload.date.getD ""
    time := payload.time.getD ""
    duration := jsParseInt (payload.duration.getD "")
    doctorName := payload.doctorName.getD ""
    status := jsOrElse payload.status "Scheduled"
    mode := payload.mode.getD ""
    reason := jsOrElse payload.reason ""
    phone := jsOrElse payload.phone ""
    email := jsOrElse payload.email ""
    notes := jsOrElse payload.notes "" }

/-- Models `createAppointment(payload)`: validate required fields, scan for a time
conflict, then assign `_nextId++`, build the record with its defaults and
push it. The pair's second component is the store after the call (unchanged
when the call throws). -/
def createAppointment (payload : Payload) (s : Store) :
    Except CreateError Appointment × Store :=
  if (missingFields payload).isEmpty then
    match s.appointments.find? (conflictFor payload) with
    | some apt => (Except.error (CreateError.conflict apt), s)
    | none =>
      (Except.ok (newRecord payload s.nextId),
       { appointments := s.appointments ++ [newRecord payload s.nextId],
         nextId := s.nextId + 1 })
  else
    (Except.error (CreateError.validation (missingFields payload)), s)

/-- One call a consumer can make against the mutable store. -/
inductive Op where
  | create (payload : Payload)
  | updateStatus (id : Nat) (newStatus : String)
  | delete (id : Nat)
deriving DecidableEq, Repr

/-- Whether an operation is an `updateStatus` call. -/
def Op.isUpdateStatus : Op → Bool
  | Op.updateStatus _ _ => true
  | _ => false

/-- The store after one call (throwing calls leave it unchanged). -/
def applyOp (s : Store) : Op → Store
  | Op.create p => (createAppointment p s).2
  | Op.updateStatus id st => (updateAppointmentStatus id st s).2
  | Op.delete id => (deleteAppointment id s).2

/-- The store after a sequence of calls. -/
def runOps (s : Store) : List Op → Store
  | [] => s
  | op :: ops => runOps (applyOp s op) ops

/-- Two appointments whose half-open `[start, start + duration)` intervals
overlap, under the code's `timeToMinutes` arithmetic. -/
def overlaps (a b : Appointment) : Bool :=
  jsLt (timeToMinutes a.time) (jsAdd (timeToMinutes b.time) b.duration) &&
  jsLt (timeToMinutes b.time) (jsAdd (timeToMinutes a.time) a.duration)

/-- Two appointments subject to the no-double-booking rule: same doctor, same
date, neither Cancelled. -/
def blocking (a b : Appointment) : Bool :=
  a.doctorName == b.doctorName && a.date == b.date &&
  a.status != "Cancelled" && b.status != "Cancelled"

/-- Checks that `a` violates the invariant against no member of the list. -/
def noConflictWithAll (a : Appointment) : List Appointment → Bool
  | [] => true
  | b :: rest => !(blocking a b && overlaps a b) && noConflictWithAll a rest

/-- The §3 no-double-booking invariant: no two non-Cancelled appointments of
one doctor on one date overlap. -/
def noDoubleBooking : List Appointment → Bool
  | [] => true
  | a :: rest => noConflictWithAll a rest && noDoubleBooking rest

/-- The per-record predicate of the spec's `list(filter)` contract: every
supplied (non-empty) filter field must equal the record's field exactly,
omitted fields impose no constraint, and the three constraints combine
with logical AND. -/
def filterMatches (date status doctorName : Option String) (apt : Appointment) : Bool :=
  (!(jsTruthy date) || apt.date == date.getD "") &&
  (!(jsTruthy status) || apt.status == status.getD "") &&
  (!(jsTruthy doctorName) || apt.doctorName == doctorName.getD "")

/-- The closed status set of §3. -/
def statusValues : List String := ["Scheduled", "Confirmed", "Upcoming", "Cancelled"]

/-- The closed mode set of §3. -/
def modeValues : List String := ["In-Person", "Video Call", "Phone Call"]

/-- The ids handed out by the successful `create` calls of a run, in order. -/
def assignedIds (s : Store) : List Op → List Nat
  | [] => []
  | Op.create p :: ops =>
    match createAppointment p s with
    | (Except.ok a, s2) => a.id :: assignedIds s2 ops
    | (Except.error _, s2) => assignedIds s2 ops
  | Op.updateStatus id st :: ops => assignedIds (updateAppointmentStatus id st s).2 ops
  | Op.delete id :: ops => assignedIds (deleteAppointment id s).2 ops

/-- The §8 success scenario payload: Test P2, 2026-01-30 at 12:00 for 30
minutes with Dr. Rajesh Kumar, In-Person, no optional fields. -/
def scenarioPayload : Payload :=
  { patientName := some "Test P2", date := some "2026-01-30", time := some "12:00",
    duration := some "30", doctorName := some "Dr. Rajesh Kumar", mode := some "In-Person",
    status := none, reason := none, phone := none, email := none, notes := none }

/-- A candidate slot exactly back-to-back with the seed's 09:00–09:30
appointment of Dr. Rajesh Kumar on 2026-01-30. -/
def boundaryPayload : Payload := { scenarioPayload with time := some "09:30" }

/-- A payload with a non-empty duration string of value 0. -/
def zeroDurationPayload : Payload :=
  { scenarioPayload with patientName := some "Test Zero", duration := some "0" }

/-- A slot that coincides with the seed's Cancelled appointment (id 7,
Dr. Amit Patel, 2026-01-29, 15:30 for 45 minutes). -/
def reactivationSlotPayload : Payload :=
  { patientName := some "Overlap X", date := some "2026-01-29", time := some "15:30",
    duration := some "45", doctorName := some "Dr. Amit Patel", mode := some "In-Person",
    status := none, reason := none, phone := none, email := none, notes := none }

/-- A payload whose `patientName`, `duration` and `mode` are absent and
whose `doctorName` is the empty string. -/
def invalidPayload : Payload :=
  { patientName := none, date := some "2026-01-30", time := some "09:00",
    duration := none, doctorName := some "", mode := none, status := none,
    reason := none, phone := none, email := none, notes := none }

lemma isEmpty_of_nil {l : List String} (h : l = []) : l.isEmpty = true := by
  rw [h]; rfl

lemma conflictFor_iff (p : Payload) (apt : Appointment) :
    conflictFor p apt = true ↔
    (apt.doctorName = p.doctorName.getD "" ∧ apt.date = p.date.getD "" ∧
     apt.status ≠ "Cancelled" ∧
     jsLt (candidateStart p) (jsAdd (timeToMinutes apt.time) apt.duration) = true ∧
     jsLt (timeToMinutes apt.time) (candidateEnd p) = true) := by
  simp [conflictFor, conflictsWith, Bool.and_eq_true, beq_iff_eq, bne_iff_ne, and_assoc]

/-- C1: a valid `create` call fails with a `ConflictError` identifying a
colliding appointment exactly when some existing non-Cancelled appointment
of the same doctor on the same date has a half-open interval `[s2, e2)`
with `s < e2 && s2 < e`, for the candidate interval `[s, e)`; equal
boundaries are therefore never a conflict. -/
theorem createAppointment_conflict_iff (p : Payload) (s : Store)
    (hvalid : missingFields p = []) :
    (∃ a, (createAppointment p s).1 = Except.error (CreateError.conflict a)) ↔
    (∃ apt ∈ s.appointments,
      apt.doctorName = p.doctorName.getD "" ∧ apt.date = p.date.getD "" ∧
      apt.status ≠ "Cancelled" ∧
      jsLt (candidateStart p) (jsAdd (timeToMinutes apt.time) apt.duration) = true ∧
      jsLt (timeToMinutes apt.time) (candidateEnd p) = true) := by
  have hempty := isEmpty_of_nil hvalid
  cases hf : s.appointments.find? (conflictFor p) with
  | some apt =>
    have hmem := List.mem_of_find?_eq_some hf
    have hp := List.find?_some hf
    have hcreate : createAppointment p s = (Except.error (CreateError.conflict apt), s) := by
      simp [createAppointment, hempty, hf]
    constructor
    · intro _
      exact ⟨apt, hmem, (conflictFor_iff p apt).mp hp⟩
    · intro _
      exact ⟨apt, by rw [hcreate]⟩
  | none =>
    have hnone := List.find?_eq_none.mp hf
    have hcreate : (createAppointment p s).1 = Except.ok (newRecord p s.nextId) := by
      simp [createAppointment, hempty, hf]
    constructor
    · rintro ⟨a, ha⟩
      rw [hcreate] at ha
      exact absurd ha (by simp)
    · rintro ⟨apt, hmem, hprop⟩
      exact absurd ((conflictFor_iff p apt).mpr hprop) (hnone apt hmem)

/-- Concrete instance of C1: the back-to-back 09:30 candidate after the
seed's 09:00–09:30 slot triggers no conflict on either side of the
equivalence. -/
theorem createAppointment_conflict_iff_witness :
    missingFields boundaryPayload = [] ∧
    ((∃ a, (createAppointment boundaryPayload initialStore).1 =
        Except.error (CreateError.conflict a)) ↔
     (∃ apt ∈ initialStore.appointments,
       apt.doctorName = boundaryPayload.doctorName.getD "" ∧
       apt.date = boundaryPayload.date.getD "" ∧
       apt.status ≠ "Cancelled" ∧
       jsLt (candidateStart boundaryPayload)
         (jsAdd (timeToMinutes apt.time) apt.duration) = true ∧
       jsLt (timeToMinutes apt.time) (candidateEnd boundaryPayload) = true)) :=
  ⟨by decide, createAppointment_conflict_iff boundaryPayload initialStore (by decide)⟩

/-- C2: with any required field missing or empty, `create` throws a
`ValidationError` whose field list is exactly the falsy required fields, and
the collection and counter are untouched. -/
theorem createAppointment_validation_spec (p : Payload) (s : Store)
    (h : ∃ f ∈ requiredFields, jsFalsy (p.lookup f) = true) :
    createAppointment p s = (Except.error (CreateError.validation (missingFields p)), s) ∧
    ∀ f, f ∈ missingFields p ↔ (f ∈ requiredFields ∧ jsFalsy (p.lookup f) = true) := by
  obtain ⟨f, hf, hfalsy⟩ := h
  have hmemf : f ∈ missingFields p := List.mem_filter.mpr ⟨hf, hfalsy⟩
  have hempty : (missingFields p).isEmpty = false := by
    cases hm : missingFields p with
    | nil => rw [hm] at hmemf; exact absurd hmemf (List.not_mem_nil f)
    | cons a l => rfl
  refine ⟨by simp [createAppointment, hempty], ?_⟩
  intro g
  simp [missingFields, List.mem_filter]

/-- Concrete instance of C2: a payload with four falsy required fields is
rejected naming exactly those fields, with the seed store untouched. -/
theorem createAppointment_validation_witness :
    (∃ f ∈ requiredFields, jsFalsy (invalidPayload.lookup f) = true) ∧
    (createAppointment invalidPayload initialStore =
      (Except.error (CreateError.validation (missingFields invalidPayload)), initialStore) ∧
     ∀ f, f ∈ missingFields invalidPayload ↔
       (f ∈ requiredFields ∧ jsFalsy (invalidPayload.lookup f) = true)) :=
  ⟨by decide, createAppointment_validation_spec invalidPayload initialStore (by decide)⟩

lemma jsOrElse_empty_default (v : Option String) : jsOrElse v "" = v.getD "" := by
  cases v with
  | none => rfl
  | some s =>
    by_cases h : s = "" <;> simp [jsOrElse, h]

/-- C5: a valid, conflict-free `create` appends exactly one record and
returns it, with the next counter value as id, the supplied-or-defaulted
status, and the supplied-or-empty optional text fields. -/
theorem createAppointment_success_spec (p : Payload) (s : Store)
    (hvalid : missingFields p = [])
    (hfree : s.appointments.find? (conflictFor p) = none) :
    ∃ a, createAppointment p s =
        (Except.ok a, { appointments := s.appointments ++ [a], nextId := s.nextId + 1 }) ∧
      a.id = s.nextId ∧
      (p.status = none → a.status = "Scheduled") ∧
      (∀ v, p.status = some v → v ≠ "" → a.status = v) ∧
      a.reason = p.reason.getD "" ∧ a.phone = p.phone.getD "" ∧
      a.email = p.email.getD "" ∧ a.notes = p.notes.getD "" := by
  have hempty := isEmpty_of_nil hvalid
  refine ⟨newRecord p s.nextId, ?_, rfl, ?_, ?_, ?_, ?_, ?_, ?_⟩
  · simp [createAppointment, hempty, hfree]
  · intro h0
    simp [newRecord, jsOrElse, h0]
  · intro v hv hne
    simp [newRecord, jsOrElse, hv, hne]
  · simp [newRecord, jsOrElse_empty_default]
  · simp [newRecord, jsOrElse_empty_default]
  · simp [newRecord, jsOrElse_empty_default]
  · simp [newRecord, jsOrElse_empty_default]

/-- Concrete instance of C5, the §8 scenario: on the 12-record seed the
Test P2 payload succeeds with the defaulted status and the next counter
value, 13, as id. -/
theorem createAppointment_success_witness :
    missingFields scenarioPayload = [] ∧
    initialStore.appointments.find? (conflictFor scenarioPayload) = none ∧
    (∃ a, createAppointment scenarioPayload initialStore =
        (Except.ok a, { appointments := initialStore.appointments ++ [a], nextId := 14 }) ∧
      a.id = 13 ∧
      (scenarioPayload.status = none → a.status = "Scheduled") ∧
      (∀ v, scenarioPayload.status = some v → v ≠ "" → a.status = v) ∧
      a.reason = scenarioPayload.reason.getD "" ∧
      a.phone = scenarioPayload.phone.getD "" ∧
      a.email = scenarioPayload.email.getD "" ∧
      a.notes = scenarioPayload.notes.getD "") :=
  ⟨by decide, by decide,
   createAppointment_success_spec scenarioPayload initialStore (by decide) (by decide)⟩

/-- C10: `create` never checks that the duration is positive: the non-empty
duration string "0" passes validation, raises no conflict, and yields a
stored record whose `parseInt`-ed duration is 0, which the positivity test
`0 < duration` rejects. -/
theorem createAppointment_accepts_nonpositive_duration :
    (createAppointment zeroDurationPayload initialStore).1 =
      Except.ok (newRecord zeroDurationPayload 13) ∧
    (createAppointment zeroDurationPayload initialStore).2.appointments =
      initialStore.appointments ++ [newRecord zeroDurationPayload 13] ∧
    (newRecord zeroDurationPayload 13).duration = some 0 ∧
    jsLt (some 0) (newRecord zeroDurationPayload 13).duration = false :=
  ⟨rfl, rfl, rfl, rfl⟩

lemma filter_opt (f : Option String) (get : Appointment → String) (l : List Appointment) :
    (if jsTruthy f then l.filter (fun apt => get apt == f.getD "") else l) =
    l.filter (fun apt => !(jsTruthy f) || get apt == f.getD "") := by
  cases hf : jsTruthy f
  · simp
  · simp

/-- C6: `getAppointments` returns exactly the sublist of the current
collection matching the conjunction of the supplied (non-empty) filter
fields, in collection order — a `List.filter`, hence order-preserving and
side-effect-free — and with no filter supplied it returns every current
appointment. -/
theorem getAppointments_spec (date status doctorName : Option String) (s : Store) :
    getAppointments date status doctorName s =
      s.appointments.filter (filterMatches date status doctorName) ∧
    getAppointments none none none s = s.appointments := by
  constructor
  · simp only [getAppointments]
    rw [filter_opt doctorName Appointment.doctorName,
        filter_opt status Appointment.status,
        filter_opt date Appointment.date]
    simp only [List.filter_filter]
    apply List.filter_congr
    intro x _
    simp only [filterMatches]
    cases hd : (!(jsTruthy date) || x.date == date.getD "") <;>
      cases hs : (!(jsTruthy status) || x.status == status.getD "") <;>
        cases hdoc : (!(jsTruthy doctorName) || x.doctorName == doctorName.getD "") <;>
          rfl
  · rfl

lemma updateFirstStatus_not_found (id : Nat) (st : String) (l : List Appointment)
    (h : ∀ a ∈ l, a.id ≠ id) : updateFirstStatus id st l = (none, l) := by
  induction l with
  | nil => rfl
  | cons a rest ih =>
    have ha : (a.id == id) = false :=
      beq_eq_false_iff_ne.mpr (h a (List.mem_cons_self a rest))
    simp [updateFirstStatus, ha, ih (fun b hb => h b (List.mem_cons_of_mem a hb))]

/-- C8: `updateAppointmentStatus` on an identifier that no record carries
returns `null` and leaves the collection unchanged in length and contents. -/
theorem updateAppointmentStatus_unknown (id : Nat) (st : String) (s : Store)
    (h : ∀ a ∈ s.appointments, a.id ≠ id) :
    updateAppointmentStatus id st s = (none, s) := by
  simp [updateAppointmentStatus, updateFirstStatus_not_found id st s.appointments h]

/-- Concrete instance of C8: no seed record has id 999, and the call with it
returns `null` leaving the seed store as it was. -/
theorem updateAppointmentStatus_unknown_witness :
    (∀ a ∈ initialStore.appointments, a.id ≠ 999) ∧
    updateAppointmentStatus 999 "Confirmed" initialStore = (none, initialStore) :=
  ⟨by decide, updateAppointmentStatus_unknown 999 "Confirmed" initialStore (by decide)⟩

lemma updateFirstStatus_found (id : Nat) (st : String) (l : List Appointment)
    (h : ∃ a ∈ l, a.id = id) :
    ∃ l1 a l2, l = l1 ++ a :: l2 ∧ (∀ b ∈ l1, b.id ≠ id) ∧ a.id = id ∧
      updateFirstStatus id st l =
        (some { a with status := st }, l1 ++ { a with status := st } :: l2) := by
  induction l with
  | nil =>
    obtain ⟨a, ha, _⟩ := h
    exact absurd ha (List.not_mem_nil a)
  | cons x rest ih =>
    by_cases hx : x.id = id
    · refine ⟨[], x, rest, by simp, by simp, hx, ?_⟩
      have hbeq : (x.id == id) = true := beq_iff_eq.mpr hx
      simp [updateFirstStatus, hbeq]
    · have hrest : ∃ a ∈ rest, a.id = id := by
        obtain ⟨a, ha, haid⟩ := h
        rcases List.mem_cons.mp ha with rfl | hmem
        · exact absurd haid hx
        · exact ⟨a, hmem, haid⟩
      obtain ⟨l1, a, l2, heq, hl1, haid, hupd⟩ := ih hrest
      refine ⟨x :: l1, a, l2, by simp [heq], ?_, haid, ?_⟩
      · intro b hb
        rcases List.mem_cons.mp hb with rfl | hb2
        · exact hx
        · exact hl1 b hb2
      · have hbeq : (x.id == id) = false := beq_eq_false_iff_ne.mpr hx
        simp [updateFirstStatus, hbeq, hupd]

/-- C9: `updateAppointmentStatus` on a present identifier rewrites only the
status field of the first record carrying it — the records before and after
it, and all its other fields, are untouched — and returns the updated
record. -/
theorem updateAppointmentStatus_known (id : Nat) (st : String) (s : Store)
    (h : ∃ a ∈ s.appointments, a.id = id) :
    ∃ l1 a l2, s.appointments = l1 ++ a :: l2 ∧ (∀ b ∈ l1, b.id ≠ id) ∧ a.id = id ∧
      updateAppointmentStatus id st s =
        (some { a with status := st },
         { s with appointments := l1 ++ { a with status := st } :: l2 }) := by
  obtain ⟨l1, a, l2, heq, hl1, haid, hupd⟩ := updateFirstStatus_found id st s.appointments h
  exact ⟨l1, a, l2, heq, hl1, haid, by simp [updateAppointmentStatus, hupd]⟩

/-- Concrete instance of C9: the seed holds a record with id 7, and updating
its status to Confirmed changes that field alone. -/
theorem updateAppointmentStatus_known_witness :
    (∃ a ∈ initialStore.appointments, a.id = 7) ∧
    (∃ l1 a l2, initialStore.appointments = l1 ++ a :: l2 ∧
      (∀ b ∈ l1, b.id ≠ 7) ∧ a.id = 7 ∧
      updateAppointmentStatus 7 "Confirmed" initialStore =
        (some { a with status := "Confirmed" },
         { initialStore with
            appointments := l1 ++ { a with status := "Confirmed" } :: l2 })) :=
  ⟨by decide, updateAppointmentStatus_known 7 "Confirmed" initialStore (by decide)⟩

lemma noConflictWithAll_iff (a : Appointment) (l : List Appointment) :
    noConflictWithAll a l = true ↔ ∀ b ∈ l, (blocking a b && overlaps a b) = false := by
  induction l with
  | nil => simp [noConflictWithAll]
  | cons b rest ih =>
    cases hb : blocking a b <;> cases ho : overlaps a b <;>
      simp [noConflictWithAll, ih, hb, ho, List.forall_mem_cons]

lemma noDoubleBooking_iff (l : List Appointment) :
    noDoubleBooking l = true ↔
      l.Pairwise (fun a b => (blocking a b && overlaps a b) = false) := by
  induction l with
  | nil => simp [noDoubleBooking]
  | cons a rest ih =>
    simp [noDoubleBooking, List.pairwise_cons, Bool.and_eq_true, ih,
      noConflictWithAll_iff]

lemma create_preserves_noDoubleBooking (p : Payload) (s : Store)
    (h : noDoubleBooking s.appointments = true) :
    noDoubleBooking (createAppointment p s).2.appointments = true := by
  cases hm : (missingFields p).isEmpty with
  | false => simpa [createAppointment, hm] using h
  | true =>
    cases hf : s.appointments.find? (conflictFor p) with
    | some apt => simpa [createAppointment, hm, hf] using h
    | none =>
      have hall := List.find?_eq_none.mp hf
      have key : ∀ a ∈ s.appointments,
          (blocking a (newRecord p s.nextId) && overlaps a (newRecord p s.nextId)) = false := by
        intro a ha
        have hfa : ¬ (conflictFor p a = true) := hall a ha
        rw [Bool.eq_false_iff]
        intro hcontra
        apply hfa
        simp only [blocking, overlaps, newRecord, Bool.and_eq_true, beq_iff_eq,
          bne_iff_ne] at hcontra
        simp only [conflictFor, conflictsWith, candidateStart, candidateEnd,
          Bool.and_eq_true, beq_iff_eq, bne_iff_ne]
        tauto
      have hgoal : noDoubleBooking (s.appointments ++ [newRecord p s.nextId]) = true := by
        rw [noDoubleBooking_iff, List.pairwise_append]
        exact ⟨(noDoubleBooking_iff s.appointments).mp h,
               List.pairwise_singleton _ _,
               fun a ha b hb => by
                 rw [List.mem_singleton.mp hb]
                 exact key a ha⟩
      simpa [createAppointment, hm, hf] using hgoal

lemma removeFirst_sublist (id : Nat) (l : List Appointment) :
    ((removeFirst id l).2).Sublist l := by
  induction l with
  | nil => simp [removeFirst]
  | cons a rest ih =>
    cases ha : (a.id == id) with
    | true =>
      simp only [removeFirst, ha, if_true]
      exact List.sublist_cons_self a rest
    | false =>
      simp only [removeFirst, ha, Bool.false_eq_true, if_false]
      exact List.Sublist.cons₂ a ih

lemma delete_preserves_noDoubleBooking (id : Nat) (s : Store)
    (h : noDoubleBooking s.appointments = true) :
    noDoubleBooking (deleteAppointment id s).2.appointments = true := by
  show noDoubleBooking (removeFirst id s.appointments).2 = true
  rw [noDoubleBooking_iff] at h ⊢
  exact List.Pairwise.sublist (removeFirst_sublist id s.appointments) h

/-- C3 fails as stated: creating into the slot of the Cancelled seed
appointment 7 and then re-activating that appointment through updateStatus
reaches a state with two overlapping non-Cancelled appointments of one
doctor on one date. -/
theorem noDoubleBooking_reachable_counterexample :
    noDoubleBooking (runOps initialStore
      [Op.create reactivationSlotPayload,
       Op.updateStatus 7 "Confirmed"]).appointments = false := by decide

/-- C3 amended: the no-double-booking invariant holds in the seed state and
in every state reachable from it by create and delete operations alone;
unrestricted updateStatus calls can break it. -/
theorem noDoubleBooking_reachable (ops : List Op)
    (h : ∀ op ∈ ops, op.isUpdateStatus = false) :
    noDoubleBooking (runOps initialStore ops).appointments = true := by
  have general : ∀ (ops2 : List Op) (s : Store),
      (∀ op ∈ ops2, op.isUpdateStatus = false) →
      noDoubleBooking s.appointments = true →
      noDoubleBooking (runOps s ops2).appointments = true := by
    intro ops2
    induction ops2 with
    | nil => intro s _ hs; exact hs
    | cons op rest ih =>
      intro s hops hs
      have hop := hops op (List.mem_cons_self op rest)
      have hrest : ∀ o ∈ rest, o.isUpdateStatus = false :=
        fun o ho => hops o (List.mem_cons_of_mem op ho)
      cases op with
      | create p =>
        show noDoubleBooking (runOps (createAppointment p s).2 rest).appointments = true
        exact ih _ hrest (create_preserves_noDoubleBooking p s hs)
      | updateStatus id st => exact absurd hop (by simp [Op.isUpdateStatus])
      | delete id =>
        show noDoubleBooking (runOps (deleteAppointment id s).2 rest).appointments = true
        exact ih _ hrest (delete_preserves_noDoubleBooking id s hs)
  exact general ops initialStore h (by decide)

/-- Concrete instance of the amended C3: a create followed by a delete keeps
the invariant. -/
theorem noDoubleBooking_reachable_witness :
    (∀ op ∈ [Op.create scenarioPayload, Op.delete 3], op.isUpdateStatus = false) ∧
    noDoubleBooking (runOps initialStore
      [Op.create scenarioPayload, Op.delete 3]).appointments = true :=
  ⟨by decide,
   noDoubleBooking_reachable [Op.create scenarioPayload, Op.delete 3] (by decide)⟩

lemma createAppointment_ok_parts (p : Payload) (s : Store) (a : Appointment) (s2 : Store)
    (h : createAppointment p s = (Except.ok a, s2)) :
    a.id = s.nextId ∧ s2.nextId = s.nextId + 1 := by
  cases hm : (missingFields p).isEmpty with
  | false => simp [createAppointment, hm] at h
  | true =>
    cases hf : s.appointments.find? (conflictFor p) with
    | some apt => simp [createAppointment, hm, hf] at h
    | none =>
      simp [createAppointment, hm, hf] at h
      obtain ⟨h1, h2⟩ := h
      subst h1
      subst h2
      exact ⟨rfl, rfl⟩

lemma createAppointment_error_store (p : Payload) (s : Store) (e : CreateError) (s2 : Store)
    (h : createAppointment p s = (Except.error e, s2)) : s2 = s := by
  cases hm : (missingFields p).isEmpty with
  | false =>
    simp [createAppointment, hm] at h
    obtain ⟨h1, h2⟩ := h
    subst h2
    rfl
  | true =>
    cases hf : s.appointments.find? (conflictFor p) with
    | some apt =>
      simp [createAppointment, hm, hf] at h
      obtain ⟨h1, h2⟩ := h
      subst h2
      rfl
    | none => simp [createAppointment, hm, hf] at h

lemma assignedIds_lb : ∀ (ops : List Op) (s : Store) (n : Nat),
    n ∈ assignedIds s ops → s.nextId ≤ n := by
  intro ops
  induction ops with
  | nil => intro s n hn; simp [assignedIds] at hn
  | cons op rest ih =>
    intro s n hn
    cases op with
    | create p =>
      simp only [assignedIds] at hn
      cases hc : createAppointment p s with
      | mk res s2 =>
        rw [hc] at hn
        cases res with
        | ok a =>
          simp at hn
          obtain ⟨haid, hnext⟩ := createAppointment_ok_parts p s a s2 hc
          rcases hn with rfl | hn2
          · omega
          · have := ih s2 n hn2
            omega
        | error e =>
          simp at hn
          have hs2 := createAppointment_error_store p s e s2 hc
          rw [hs2] at hn
          exact ih s n hn
    | updateStatus id st =>
      simp only [assignedIds] at hn
      exact ih (updateAppointmentStatus id st s).2 n hn
    | delete id =>
      simp only [assignedIds] at hn
      exact ih (deleteAppointment id s).2 n hn

/-- C4: along any run from the seed state, the ids handed out by successful
creates are pairwise strictly increasing in order of assignment — every new
id exceeds every previously assigned id, so ids are unique and never
reused, even after deletion. -/
theorem assignedIds_strictly_increasing (ops : List Op) :
    List.Pairwise (fun i j => i < j) (assignedIds initialStore ops) := by
  have general : ∀ (ops2 : List Op) (s : Store),
      List.Pairwise (fun i j => i < j) (assignedIds s ops2) := by
    intro ops2
    induction ops2 with
    | nil => intro s; simp [assignedIds]
    | cons op rest ih =>
      intro s
      cases op with
      | create p =>
        simp only [assignedIds]
        cases hc : createAppointment p s with
        | mk res s2 =>
          cases res with
          | ok a =>
            show List.Pairwise (fun i j => i < j) (a.id :: assignedIds s2 rest)
            rw [List.pairwise_cons]
            refine ⟨?_, ih s2⟩
            intro n hn
            obtain ⟨haid, hnext⟩ := createAppointment_ok_parts p s a s2 hc
            have hlb := assignedIds_lb rest s2 n hn
            omega
          | error e =>
            show List.Pairwise (fun i j => i < j) (assignedIds s2 rest)
            exact ih s2
      | updateStatus id st =>
        simp only [assignedIds]
        exact ih _
      | delete id =>
        simp only [assignedIds]
        exact ih _
  exact general ops initialStore

/-- C7 fails as stated: the seed fixture spans 6 distinct calendar dates and
3 distinct doctors, not 5 and 4. -/
theorem mockAppointments_profile_counterexample :
    ¬((mockAppointments.map Appointment.date).dedup.length = 5 ∧
      (mockAppointments.map Appointment.doctorName).dedup.length = 4) := by decide

/-- C7 amended: the seed is exactly 12 records spanning 6 calendar dates, 3
doctors, all 4 statuses and all 3 modes, and satisfies the §3 invariants:
distinct ids, positive durations, statuses from the closed set, and no
double-booking among non-Cancelled records of one doctor and date. -/
theorem mockAppointments_profile :
    mockAppointments.length = 12 ∧
    (mockAppointments.map Appointment.date).dedup.length = 6 ∧
    (mockAppointments.map Appointment.doctorName).dedup.length = 3 ∧
    (∀ a ∈ mockAppointments, a.status ∈ statusValues) ∧
    (∀ v ∈ statusValues, ∃ a ∈ mockAppointments, a.status = v) ∧
    (∀ a ∈ mockAppointments, a.mode ∈ modeValues) ∧
    (∀ v ∈ modeValues, ∃ a ∈ mockAppointments, a.mode = v) ∧
    List.Pairwise (fun a b => a.id ≠ b.id) mockAppointments ∧
    (∀ a ∈ mockAppointments, jsLt (some 0) a.duration = true) ∧
    noDoubleBooking mockAppointments = true ∧
    initialStore.appointments = mockAppointments := by decide

end EMR
